import Mathlib

/-!
Verification of the query-execution abstraction layer of the profiler:
`metadata/profiler/processor/runner.py` (class QueryRunner) and
`metadata/sampler/sqlalchemy/bigquery/sampler.py` (class BigQuerySampler),
shallowly embedded in Lean.

SQLAlchemy query objects are generative and immutable: `query.filter(f)`
returns a NEW query with `f` appended to the filter chain and leaves the
receiver unchanged.  We model a query as a record of projected entities,
an optional FROM source and an ordered filter chain.  Execution against
the session is modelled by a session field mapping each query to its
result rows; `.first()` and `.all()` executions are recorded as an
`Exec` value carrying the cardinality and the exact query that ran.

Methods of the two classes are translated as functions taking the
instance and returning the result together with the post-state instance,
so that mutation (or its absence) is visible in the embedding.
-/

namespace OMRunner

/-- Abstract partition specification.  The runner treats it opaquely: it
only tests it for presence and hands it to the predicate builder, so the
column-name / range / time-unit payload is abstracted to an identifier. -/
structure PartitionDetails where
  id : Nat
  deriving DecidableEq, Repr

/-- A filter expression appearing in a query filter chain: either a
predicate derived from the keyword arguments of a fetch call, or the
partition predicate produced by the predicate builder. -/
inductive Filt where
  | kw (n : Nat)
  | partition (pd : PartitionDetails)
  deriving DecidableEq, Repr

/-- Modelled from the spec: `build_partition_predicate` (the Predicate
Builder, `metadata/profiler/processor/handle_partition.py`, not under
src/) produces from a partition spec a composable boolean predicate
usable wherever a filter is expected, with no side effects.  Its
ConfigurationError on a partition column absent from the table columns is
not modelled: the data-model invariant of the spec states the column of a
bound partition spec exists among the table column descriptors, and no
claim exercises the failure path. -/
def build_partition_predicate (pd : PartitionDetails) : Filt :=
  Filt.partition pd

/-- The kind of the bound sample handle: a plain declarative table object
or an AliasedClass (an aliased, sampled view of the table). -/
inductive SampleHandle where
  | decl
  | aliased
  deriving DecidableEq, Repr

/-- The table handle bound to a runner, abstracted to an identifier (the
runner never inspects it beyond passing it around as a query source). -/
structure TableHandle where
  id : Nat
  deriving DecidableEq, Repr

/-- The FROM source that a built query selects from: the raw table, the
bound sample handle, or the user-defined custom query text wrapped as a
subquery (the result of select_from over
session.query(table).from_statement(text(profile_sample_query))). -/
inductive QuerySource where
  | table (t : TableHandle)
  | sample (s : SampleHandle)
  | userSubquery (txt : String)
  deriving DecidableEq, Repr

/-- A SQLAlchemy-style generative query: projected entities, an optional
FROM source installed by select_from, and the ordered filter chain. -/
structure Query where
  entities : List String
  source : Option QuerySource
  filters : List Filt
  deriving DecidableEq, Repr

/-- `query.select_from(s)`: returns a new query with the FROM source set. -/
def Query.select_from (q : Query) (s : QuerySource) : Query :=
  { q with source := some s }

/-- `query.filter(f)`: returns a NEW query with `f` appended to the
filter chain; the receiver is unchanged (generative API). -/
def Query.filter (q : Query) (f : Filt) : Query :=
  { q with filters := q.filters ++ [f] }

/-- Cardinality of a materialized execution: `.first()` or `.all()`. -/
inductive Card where
  | one
  | all
  deriving DecidableEq, Repr

/-- A materialized execution: which query ran, with which cardinality. -/
structure Exec where
  card : Card
  query : Query
  deriving DecidableEq, Repr

/-- A row of a result set, abstracted to an identifier. -/
abbrev Row : Type := Nat

/-- The live session handle: maps each executed query to the rows its
forward-only result cursor delivers. -/
structure Session where
  results : Query → List Row

/-- Modelled from the spec: the keyword arguments of a fetch call, as far
as the runner consumes them.  The spec says free-form keyword filters are
"translated into additional predicates by a helper not in the core"; the
runner only ever feeds kwargs to that helper, so kwargs are modelled as
the optional derived filter itself. -/
abbrev Kwargs : Type := Option Filt

/-- Modelled from the spec: `get_query_filter_for_runner`
(`metadata/utils/sqa_utils.py`, not under src/) translates the free-form
keyword filter arguments into the additional predicate to apply, when one
is present. -/
def get_query_filter_for_runner (kwargs : Kwargs) : Option Filt :=
  kwargs

/-- The QueryRunner instance state, as bound by __init__: the session,
the table handle, the sample handle, the optional partition spec and the
optional custom query string. -/
structure QueryRunner where
  _session : Session
  table : TableHandle
  _sample : SampleHandle
  partition_details : Option PartitionDetails
  profile_sample_query : Option String

/-- `self._build_query(*entities, **kwargs)`: session.query(*entities),
a fresh query projecting the entities, with no source and no filter. -/
def QueryRunner._build_query (_r : QueryRunner) (entities : List String)
    (_kwargs : Kwargs) : Query :=
  { entities := entities, source := none, filters := [] }

/-- `self._select_from_sample(*entities, **kwargs)`: build the query,
select from the bound sample handle, and apply the kwargs-derived filter
when there is one. -/
def QueryRunner._select_from_sample (r : QueryRunner) (entities : List String)
    (kwargs : Kwargs) : Query :=
  let filt := get_query_filter_for_runner kwargs
  let query := (r._build_query entities kwargs).select_from (QuerySource.sample r._sample)
  match filt with
  | some f => query.filter f
  | none => query

/-- `self._select_from_user_query(*entities, **kwargs)`: wrap the custom
query text as a subquery (session.query(table).from_statement(text(s)))
and select from it, applying the kwargs-derived filter when there is one.
The source reads self.profile_sample_query; a missing custom query is
wrapped as the empty text (the callers only reach this with it set). -/
def QueryRunner._select_from_user_query (r : QueryRunner) (entities : List String)
    (kwargs : Kwargs) : Query :=
  let filt := get_query_filter_for_runner kwargs
  let user_text := r.profile_sample_query.getD ""
  let query := (r._build_query entities kwargs).select_from (QuerySource.userSubquery user_text)
  match filt with
  | some f => query.filter f
  | none => query

/-- Modelled from the spec: the `partition_filter_handler` decorator
(`metadata/profiler/processor/handle_partition.py`, not under src/).
Per the spec, it wraps each fetch operation so that, when a partition spec
is bound, the partition predicate is rebuilt and ANDed into the filter
chain of the query before execution; with no partition spec the wrapped
query runs unchanged. -/
def partition_filter_handler (r : QueryRunner) (q : Query) : Query :=
  match r.partition_details with
  | some pd => q.filter (build_partition_predicate pd)
  | none => q

/-- Python truthiness of an optional string: None and the empty string
are falsy, any non-empty string is truthy.  The source guards the custom
query path with `if self.profile_sample_query:`. -/
def truthyStr : Option String → Bool
  | none => false
  | some s => !s.isEmpty

/-- Body of `select_first_from_table` / `select_all_from_table` up to the
final .first() / .all() call: if the custom query string is truthy,
select from the user query subquery; otherwise build the query over the
raw table and apply the kwargs-derived filter when there is one. -/
def QueryRunner.select_from_table_query (r : QueryRunner) (entities : List String)
    (kwargs : Kwargs) : Query :=
  let filt := get_query_filter_for_runner kwargs
  if truthyStr r.profile_sample_query then
    r._select_from_user_query entities kwargs
  else
    let query := (r._build_query entities kwargs).select_from (QuerySource.table r.table)
    match filt with
    | some f => query.filter f
    | none => query

/-- `select_first_from_table`, decorated with partition_filter_handler():
execute the table-or-user-query body with .first() cardinality, the
partition predicate ANDed in by the handler when a partition spec is
bound.  No instance field is assigned, so the post-state is the input. -/
def QueryRunner.select_first_from_table (r : QueryRunner) (entities : List String)
    (kwargs : Kwargs) : Exec × QueryRunner :=
  (⟨Card.one, partition_filter_handler r (r.select_from_table_query entities kwargs)⟩, r)

/-- `select_all_from_table`, decorated with
partition_filter_handler(first=False): same body, .all() cardinality. -/
def QueryRunner.select_all_from_table (r : QueryRunner) (entities : List String)
    (kwargs : Kwargs) : Exec × QueryRunner :=
  (⟨Card.all, partition_filter_handler r (r.select_from_table_query entities kwargs)⟩, r)

/-- `select_first_from_sample`, decorated with
partition_filter_handler(sampled=True):
self._select_from_sample(*entities, **kwargs).first(). -/
def QueryRunner.select_first_from_sample (r : QueryRunner) (entities : List String)
    (kwargs : Kwargs) : Exec × QueryRunner :=
  (⟨Card.one, partition_filter_handler r (r._select_from_sample entities kwargs)⟩, r)

/-- `select_all_from_sample`, decorated with
partition_filter_handler(first=False, sampled=True):
self._select_from_sample(*entities, **kwargs).all(). -/
def QueryRunner.select_all_from_sample (r : QueryRunner) (entities : List String)
    (kwargs : Kwargs) : Exec × QueryRunner :=
  (⟨Card.all, partition_filter_handler r (r._select_from_sample entities kwargs)⟩, r)

/-- `result.fetchmany(1000)` iterated until a batch comes back empty:
chunks the rows delivered by the forward-only cursor into batches of
exactly 1000 rows, the last batch holding the remainder. -/
def fetchBatches : List Row → List (List Row)
  | [] => []
  | r :: rs => (List.take 1000 (r :: rs)) :: fetchBatches (List.drop 1000 (r :: rs))
termination_by l => l.length
decreasing_by simp [List.length_drop]; omega

/-- What one invocation of the streaming generator `yield_from_sample`
does: the query it hands to session.execute, and the batches the cursor
loop yields. -/
structure StreamResult where
  executed : Query
  batches : List (List Row)
  deriving DecidableEq, Repr

/-- `yield_from_sample` (not decorated): builds the sample query, and,
when a partition spec is bound, builds the partition predicate and calls
query.filter(partition_filter) as a bare expression statement — the new
filtered query that call returns is discarded by the source, so the
executed query is a fresh undecorated _select_from_sample result.  The
session executes it and the loop yields rows in fetchmany(1000) batches
until a fetch returns no rows. -/
def QueryRunner.yield_from_sample (r : QueryRunner) (entities : List String)
    (kwargs : Kwargs) : StreamResult × QueryRunner :=
  let query := r._select_from_sample entities kwargs
  let _discarded : Option Query :=
    r.partition_details.map (fun pd => query.filter (build_partition_predicate pd))
  let executed := r._select_from_sample entities kwargs
  let rows := r._session.results executed
  (⟨executed, fetchBatches rows⟩, r)

/-- `dispatch_query_select_first`: dispatch on
isinstance(self._sample, AliasedClass) — to the sample path when the
bound sample handle is an AliasedClass, to the table path otherwise. -/
def QueryRunner.dispatch_query_select_first (r : QueryRunner) (entities : List String)
    (kwargs : Kwargs) : Exec × QueryRunner :=
  match r._sample with
  | SampleHandle.aliased => r.select_first_from_sample entities kwargs
  | SampleHandle.decl => r.select_first_from_table entities kwargs

/-- Static method `select_first_from_query(query)`: query.first(), the
pre-built query executed exactly as given. -/
def QueryRunner.select_first_from_query (query : Query) : Exec :=
  ⟨Card.one, query⟩

/-- Static method `select_all_from_query(query)`: query.all(), the
pre-built query executed exactly as given. -/
def QueryRunner.select_all_from_query (query : Query) : Exec :=
  ⟨Card.all, query⟩

/-! ## The BigQuery sampler strategy -/

/-- ProfileSampleType: percentage-based or fixed-row-count sampling. -/
inductive ProfileSampleType where
  | PERCENTAGE
  | ROWS
  deriving DecidableEq, Repr

/-- TableType: the kind of the profiled table (the generated enum has
more members; only the view / non-view distinction is inspected here). -/
inductive TableType where
  | Regular
  | View
  | External
  deriving DecidableEq, Repr

/-- Sample config: sampling type and magnitude.  The numeric magnitude is
modelled as an optional natural number; None models the unset field. -/
structure SampleConfig where
  profile_sample_type : ProfileSampleType
  profile_sample : Option Nat
  deriving DecidableEq, Repr

/-- The sqlalchemy column type, as far as the sampler distinguishes it:
the sqlalchemy_bigquery STRUCT type it constructs for parent struct
columns, versus anything else. -/
inductive ColType where
  | STRUCT
  | OTHER
  deriving DecidableEq, Repr

/-- A sqlalchemy Column: a name and a type. -/
structure Column where
  name : String
  type : ColType
  deriving DecidableEq, Repr

/-- The ORM table object held by the sampler: its __tablename__ and the
column registry of its __table__ (which Column._set_parent extends). -/
structure TableModel where
  tablename : String
  columns : List Column
  deriving DecidableEq, Repr

/-- BigQuerySampler instance state: the fields its two methods read.
sample_config is modelled as always present (the methods dereference it
unconditionally); table_type keeps its Optional[TableType] = None
default from __init__. -/
structure BigQuerySampler where
  table : TableModel
  sample_config : SampleConfig
  partition_details : Option PartitionDetails
  table_type : Option TableType
  deriving DecidableEq, Repr

/-- A sample-producing query fragment, as the sampler strategies build
it: the base construction over a sampled column, the generic base
strategy construction, a suffix_with clause, a named CTE wrapper, or a
partition filter injected by the handler contract. -/
inductive SQuery where
  | base (column : Option Column) (label : Option String)
  | generic (column : Option Column)
  | suffixWith (q : SQuery) (sfx : String)
  | cte (q : SQuery) (name : String)
  | filtered (q : SQuery) (f : Filt)
  deriving DecidableEq, Repr

/-- Modelled from the spec: `SQASampler._base_sample_query` (the base
strategy, `metadata/sampler/sqlalchemy/sampler.py`, not under src/)
builds the sample query fragment over the given column with the given
label — the generic construction the backend override delegates to. -/
def SQASampler._base_sample_query (column : Option Column) (label : Option String) : SQuery :=
  SQuery.base column label

/-- Modelled from the spec: `SQASampler.get_sample_query` (the base
strategy, not under src/) is the generic — non-system-sampling —
row-count- or percentage-based random sampling construction over the
table that backend overrides fall back to.  It issues no
TABLESAMPLE SYSTEM clause and leaves the sampler state unchanged. -/
def SQASampler.get_sample_query (s : BigQuerySampler) (column : Option Column) :
    SQuery × BigQuerySampler :=
  (SQuery.generic column, s)

/-- Splitting a character list at every occurrence of the separator
character, keeping empty pieces — the semantics of the Python
str.split(sep) call for a one-character separator.  Always returns a
non-empty list of pieces. -/
def splitOnChar (c : Char) : List Char → List (List Char)
  | [] => [[]]
  | x :: xs =>
    let rest := splitOnChar c xs
    if x = c then [] :: rest
    else
      match rest with
      | [] => [[x]]
      | y :: ys => (x :: y) :: ys

/-- Python column.name.split(".") — e.g. "foo.bar" gives ["foo", "bar"],
a name with no separator gives the one-piece list [name]. -/
def pySplitDot (s : String) : List String :=
  (splitOnChar '.' s.data).map (fun l => { data := l })

/-- `BigQuerySampler._base_sample_query`: when the requested column name
holds a path separator (a struct field such as foo.bar), construct a new
STRUCT Column named after the part before the first separator, attach it
to the table column registry via Column._set_parent(self.table.__table__),
and delegate to the base construction with it; otherwise delegate
unchanged. -/
def BigQuerySampler._base_sample_query (s : BigQuerySampler) (column : Option Column)
    (label : Option String) : SQuery × BigQuerySampler :=
  match column with
  | some col =>
    let column_parts := pySplitDot col.name
    if column_parts.length > 1 then
      let parent : Column := ⟨column_parts.headD col.name, ColType.STRUCT⟩
      let s2 := { s with table := { s.table with columns := s.table.columns ++ [parent] } }
      (SQASampler._base_sample_query (some parent) label, s2)
    else
      (SQASampler._base_sample_query (some col) label, s)
  | none => (SQASampler._base_sample_query none label, s)

/-- Python `x or d` over the optional numeric magnitude: None and 0 are
falsy and give the default. -/
def pyOr (v : Option Nat) (d : Nat) : Nat :=
  match v with
  | none => d
  | some n => if n = 0 then d else n

/-- Modelled from the spec: the partition-filter-handler contract on the
sampler (get_sample_query is decorated with
partition_filter_handler(build_sample=True)): when a partition spec is
bound the partition predicate is ANDed into the produced sample source,
otherwise the construction is unchanged. -/
def sampler_partition_filter_handler (s : BigQuerySampler) (q : SQuery) : SQuery :=
  match s.partition_details with
  | some pd => SQuery.filtered q (build_partition_predicate pd)
  | none => q

/-- Body of `BigQuerySampler.get_sample_query`: TABLESAMPLE SYSTEM is
not supported for views, so only for a percentage-type sample config on
a table whose table_type is not View does it take the base sample query
suffixed with the TABLESAMPLE SYSTEM percentage clause as a named CTE;
otherwise it falls back to super().get_sample_query(column=column). -/
def BigQuerySampler.get_sample_query_body (s : BigQuerySampler) (column : Option Column) :
    SQuery × BigQuerySampler :=
  if s.sample_config.profile_sample_type = ProfileSampleType.PERCENTAGE ∧
      s.table_type ≠ some TableType.View then
    let bs := s._base_sample_query column none
    ((SQuery.suffixWith bs.1
        ("TABLESAMPLE SYSTEM (" ++ toString (pyOr s.sample_config.profile_sample 100) ++ " PERCENT)")).cte
      (s.table.tablename ++ "_sample"), bs.2)
  else
    SQASampler.get_sample_query s column

/-- `BigQuerySampler.get_sample_query`, decorated with
partition_filter_handler(build_sample=True). -/
def BigQuerySampler.get_sample_query (s : BigQuerySampler) (column : Option Column) :
    SQuery × BigQuerySampler :=
  let qs := s.get_sample_query_body column
  (sampler_partition_filter_handler s qs.1, qs.2)

/-- Observer: the suffix_with clauses attached to a sample fragment. -/
def SQuery.suffixes : SQuery → List String
  | SQuery.base _ _ => []
  | SQuery.generic _ => []
  | SQuery.suffixWith q sfx => SQuery.suffixes q ++ [sfx]
  | SQuery.cte q _ => SQuery.suffixes q
  | SQuery.filtered q _ => SQuery.suffixes q

/-- Observer: the column the fragment references at the sampling clause
(the column handed to the base construction). -/
def SQuery.sampledColumn : SQuery → Option Column
  | SQuery.base c _ => c
  | SQuery.generic c => c
  | SQuery.suffixWith q _ => SQuery.sampledColumn q
  | SQuery.cte q _ => SQuery.sampledColumn q
  | SQuery.filtered q _ => SQuery.sampledColumn q

/-- Observer: whether the fragment fell back to the generic base
strategy construction. -/
def SQuery.isGenericFallback : SQuery → Bool
  | SQuery.base _ _ => false
  | SQuery.generic _ => true
  | SQuery.suffixWith q _ => SQuery.isGenericFallback q
  | SQuery.cte q _ => SQuery.isGenericFallback q
  | SQuery.filtered q _ => SQuery.isGenericFallback q

/-- Observer: the name of the CTE the fragment was wrapped into, looking
through an injected partition filter. -/
def SQuery.cteName : SQuery → Option String
  | SQuery.base _ _ => none
  | SQuery.generic _ => none
  | SQuery.suffixWith _ _ => none
  | SQuery.cte _ n => some n
  | SQuery.filtered q _ => SQuery.cteName q

/-! ## Concrete fixtures for evaluating the model -/

/-- A concrete partition spec. -/
def pd0 : PartitionDetails := ⟨0⟩

/-- A concrete table handle. -/
def tbl0 : TableHandle := ⟨0⟩

/-- A session whose cursors deliver no rows. -/
def sessionEmpty : Session := ⟨fun _ => []⟩

/-- A session whose cursors deliver 2500 rows. -/
def session2500 : Session := ⟨fun _ => List.replicate 2500 0⟩

/-- A runner with a partition spec bound and no custom query. -/
def runnerPart : QueryRunner :=
  ⟨sessionEmpty, tbl0, SampleHandle.aliased, some pd0, none⟩

/-- A runner whose custom query string is set but empty. -/
def runnerEmptyCustom : QueryRunner :=
  ⟨sessionEmpty, tbl0, SampleHandle.decl, none, some ""⟩

/-- A runner with a non-empty custom query string and an aliased sample. -/
def runnerCustom : QueryRunner :=
  ⟨sessionEmpty, tbl0, SampleHandle.aliased, some pd0, some "SELECT 1"⟩

/-- A runner over the 2500-row session. -/
def runnerBig : QueryRunner :=
  ⟨session2500, tbl0, SampleHandle.aliased, none, none⟩

/-- A runner with a plain (non-aliased) sample handle. -/
def runnerDecl : QueryRunner :=
  ⟨sessionEmpty, tbl0, SampleHandle.decl, none, none⟩

/-- A percentage-config sampler over a view-kind table. -/
def samplerView : BigQuerySampler :=
  ⟨⟨"users", [⟨"id", ColType.OTHER⟩]⟩, ⟨ProfileSampleType.PERCENTAGE, some 50⟩, none,
    some TableType.View⟩

/-- A percentage-config sampler over a regular table, magnitude unset. -/
def samplerNoPct : BigQuerySampler :=
  ⟨⟨"users", [⟨"id", ColType.OTHER⟩]⟩, ⟨ProfileSampleType.PERCENTAGE, none⟩, none,
    some TableType.Regular⟩

/-- A percentage-config sampler over a regular table, magnitude 50. -/
def samplerPct : BigQuerySampler :=
  ⟨⟨"users", [⟨"id", ColType.OTHER⟩]⟩, ⟨ProfileSampleType.PERCENTAGE, some 50⟩, none,
    some TableType.Regular⟩

/-! ## Helper lemmas -/

/-- The generative filter call preserves the FROM source. -/
theorem filter_source (q : Query) (f : Filt) : (q.filter f).source = q.source := rfl

/-- The partition filter handler preserves the FROM source. -/
theorem partition_filter_handler_source (r : QueryRunner) (q : Query) :
    (partition_filter_handler r q).source = q.source := by
  unfold partition_filter_handler
  cases r.partition_details <;> rfl

/-- The partition filter handler keeps every filter of the wrapped query. -/
theorem mem_partition_filter_handler (r : QueryRunner) (q : Query) (f : Filt)
    (h : f ∈ q.filters) : f ∈ (partition_filter_handler r q).filters := by
  unfold partition_filter_handler
  cases r.partition_details with
  | none => exact h
  | some pd => simpa [Query.filter] using Or.inl h

/-- With a partition spec bound, the handler puts the partition
predicate into the filter chain. -/
theorem partition_mem_handler (r : QueryRunner) (q : Query) (pd : PartitionDetails)
    (h : r.partition_details = some pd) :
    Filt.partition pd ∈ (partition_filter_handler r q).filters := by
  unfold partition_filter_handler
  rw [h]
  simp [Query.filter, build_partition_predicate]

/-- Source and filters of the sample-path query builder. -/
theorem select_from_sample_shape (r : QueryRunner) (e : List String) (kw : Kwargs) :
    (r._select_from_sample e kw).source = some (QuerySource.sample r._sample) ∧
    (∀ f, kw = some f → f ∈ (r._select_from_sample e kw).filters) := by
  unfold QueryRunner._select_from_sample
  cases kw with
  | none => simp [get_query_filter_for_runner, Query.select_from, QueryRunner._build_query]
  | some f =>
    simp [get_query_filter_for_runner, Query.select_from, Query.filter,
      QueryRunner._build_query]

/-- Source and filters of the table-or-custom-query body when the custom
query string is truthy. -/
theorem select_from_table_query_custom (r : QueryRunner) (e : List String) (kw : Kwargs)
    (s : String) (hq : r.profile_sample_query = some s)
    (ht : truthyStr r.profile_sample_query = true) :
    (r.select_from_table_query e kw).source = some (QuerySource.userSubquery s) ∧
    (∀ f, kw = some f → f ∈ (r.select_from_table_query e kw).filters) := by
  unfold QueryRunner.select_from_table_query
  rw [ht]
  unfold QueryRunner._select_from_user_query
  rw [hq]
  cases kw with
  | none => simp [get_query_filter_for_runner, Query.select_from, QueryRunner._build_query]
  | some f =>
    simp [get_query_filter_for_runner, Query.select_from, Query.filter,
      QueryRunner._build_query]

/-! ## The claims -/

/-- Claim C1: the claim states that with a partition spec bound every
fetch other than the materialized-query pair — in particular
yield_from_sample — executes a query whose filter chain includes the
partition predicate.  The code violates this in yield_from_sample: it
builds the predicate and calls query.filter(partition_filter), but a
SQLAlchemy filter call returns a new query and the source drops that
return value, then executes a fresh unfiltered sample query.  Evaluated
here at a runner with a partition spec bound: the executed query has an
empty filter chain, while the discarded query did hold the predicate. -/
theorem yield_from_sample_drops_partition_predicate :
    runnerPart.partition_details = some pd0 ∧
    (runnerPart.yield_from_sample ["col1"] none).1.executed.filters = [] ∧
    Filt.partition pd0 ∈ ((runnerPart._select_from_sample ["col1"] none).filter
        (build_partition_predicate pd0)).filters := by
  refine ⟨rfl, rfl, ?_⟩
  simp [Query.filter, build_partition_predicate]

/-- Claim C2 counterexample: the claim quantifies over runners with
profile_sample_query not None; with the custom query string set to the
empty string (not None, but Python-falsy, so `if self.profile_sample_query:`
rejects it) select_first_from_table runs against the raw table, not the
wrapped custom query. -/
theorem select_from_table_empty_custom_counterexample :
    runnerEmptyCustom.profile_sample_query ≠ none ∧
    (runnerEmptyCustom.select_first_from_table ["c"] none).1.query.source
        = some (QuerySource.table tbl0) ∧
    (runnerEmptyCustom.select_all_from_table ["c"] none).1.query.source
        ≠ some (QuerySource.userSubquery "") := by
  refine ⟨by decide, rfl, by decide⟩

/-- Claim C2 (amended): for every QueryRunner whose custom query string
is set and truthy (non-empty), select_first_from_table and
select_all_from_table execute against the custom query text wrapped as a
subquery — never against the raw table — for every choice of sample
handle, and a kwargs-derived filter is still applied on top. -/
theorem select_from_table_uses_custom_query (r : QueryRunner) (entities : List String)
    (kwargs : Kwargs) (s : String) (hq : r.profile_sample_query = some s)
    (ht : truthyStr r.profile_sample_query = true) :
    (r.select_first_from_table entities kwargs).1.query.source
        = some (QuerySource.userSubquery s) ∧
    (r.select_all_from_table entities kwargs).1.query.source
        = some (QuerySource.userSubquery s) ∧
    (∀ f, kwargs = some f →
        f ∈ (r.select_first_from_table entities kwargs).1.query.filters ∧
        f ∈ (r.select_all_from_table entities kwargs).1.query.filters) := by
  have hbody := select_from_table_query_custom r entities kwargs s hq ht
  refine ⟨?_, ?_, ?_⟩
  · rw [QueryRunner.select_first_from_table]
    rw [partition_filter_handler_source]
    exact hbody.1
  · rw [QueryRunner.select_all_from_table]
    rw [partition_filter_handler_source]
    exact hbody.1
  · intro f hf
    exact ⟨mem_partition_filter_handler _ _ _ (hbody.2 f hf),
      mem_partition_filter_handler _ _ _ (hbody.2 f hf)⟩

/-- Claim C2 witness: the amended theorem evaluated at a concrete runner
with custom query "SELECT 1", an aliased sample handle, a partition spec
and a kwargs filter. -/
theorem select_from_table_uses_custom_query_witness :
    (runnerCustom.select_first_from_table ["c"] (some (Filt.kw 7))).1.query.source
        = some (QuerySource.userSubquery "SELECT 1") ∧
    Filt.kw 7 ∈ (runnerCustom.select_first_from_table ["c"] (some (Filt.kw 7))).1.query.filters := by
  have h := select_from_table_uses_custom_query runnerCustom ["c"] (some (Filt.kw 7))
    "SELECT 1" rfl rfl
  exact ⟨h.1, (h.2.2 (Filt.kw 7) rfl).1⟩

/-- Claim C3 counterexample: with a custom query string set, the
sample-path operation select_first_from_sample still executes against
the bound sample handle, not against the custom query text wrapped as a
subquery — the sample path never consults profile_sample_query. -/
theorem select_from_sample_ignores_custom_query :
    runnerCustom.profile_sample_query = some "SELECT 1" ∧
    (runnerCustom.select_first_from_sample ["c"] none).1.query.source
        = some (QuerySource.sample SampleHandle.aliased) ∧
    (runnerCustom.select_first_from_sample ["c"] none).1.query.source
        ≠ some (QuerySource.userSubquery "SELECT 1") := by
  refine ⟨rfl, rfl, by simp [runnerCustom, QueryRunner.select_first_from_sample,
    partition_filter_handler, QueryRunner._select_from_sample, get_query_filter_for_runner,
    Query.select_from, Query.filter, QueryRunner._build_query, pd0, build_partition_predicate]⟩

/-- Claim C3 (amended): only the table-path operations consult the
custom query; the sample-path operations select_first_from_sample,
select_all_from_sample and the streaming yield_from_sample always
execute against the bound sample handle, with the kwargs-derived filter
applied on top and — for the two decorated operations — the partition
predicate ANDed in when a partition spec is bound, whether or not a
custom query string is set. -/
theorem sample_ops_select_from_sample (r : QueryRunner) (entities : List String)
    (kwargs : Kwargs) :
    (r.select_first_from_sample entities kwargs).1.query.source
        = some (QuerySource.sample r._sample) ∧
    (r.select_all_from_sample entities kwargs).1.query.source
        = some (QuerySource.sample r._sample) ∧
    (r.yield_from_sample entities kwargs).1.executed.source
        = some (QuerySource.sample r._sample) ∧
    (∀ f, kwargs = some f →
        f ∈ (r.select_first_from_sample entities kwargs).1.query.filters ∧
        f ∈ (r.select_all_from_sample entities kwargs).1.query.filters) ∧
    (∀ pd, r.partition_details = some pd →
        Filt.partition pd ∈ (r.select_first_from_sample entities kwargs).1.query.filters ∧
        Filt.partition pd ∈ (r.select_all_from_sample entities kwargs).1.query.filters) := by
  have hshape := select_from_sample_shape r entities kwargs
  refine ⟨?_, ?_, ?_, ?_, ?_⟩
  · rw [QueryRunner.select_first_from_sample, partition_filter_handler_source]
    exact hshape.1
  · rw [QueryRunner.select_all_from_sample, partition_filter_handler_source]
    exact hshape.1
  · rw [QueryRunner.yield_from_sample]
    exact hshape.1
  · intro f hf
    exact ⟨mem_partition_filter_handler _ _ _ (hshape.2 f hf),
      mem_partition_filter_handler _ _ _ (hshape.2 f hf)⟩
  · intro pd hpd
    exact ⟨partition_mem_handler _ _ _ hpd, partition_mem_handler _ _ _ hpd⟩

/-- Claim C3 amended-theorem witness: evaluated at the concrete runner
with custom query, partition spec and a kwargs filter. -/
theorem sample_ops_select_from_sample_witness :
    (runnerCustom.select_all_from_sample ["c"] (some (Filt.kw 3))).1.query.source
        = some (QuerySource.sample SampleHandle.aliased) ∧
    Filt.kw 3 ∈ (runnerCustom.select_all_from_sample ["c"] (some (Filt.kw 3))).1.query.filters ∧
    Filt.partition pd0
        ∈ (runnerCustom.select_all_from_sample ["c"] (some (Filt.kw 3))).1.query.filters := by
  have h := sample_ops_select_from_sample runnerCustom ["c"] (some (Filt.kw 3))
  exact ⟨h.2.1, (h.2.2.2.1 (Filt.kw 3) rfl).2, (h.2.2.2.2 pd0 rfl).2⟩

/-- Claim C4: dispatch_query_select_first selects its path solely by the
kind of the bound sample handle — the sample path for an AliasedClass,
the table path otherwise — for every runner, in particular independently
of whether a custom query string is set. -/
theorem dispatch_query_select_first_by_sample_kind (r : QueryRunner)
    (entities : List String) (kwargs : Kwargs) :
    (r._sample = SampleHandle.aliased →
        r.dispatch_query_select_first entities kwargs
          = r.select_first_from_sample entities kwargs) ∧
    (r._sample = SampleHandle.decl →
        r.dispatch_query_select_first entities kwargs
          = r.select_first_from_table entities kwargs) := by
  unfold QueryRunner.dispatch_query_select_first
  cases h : r._sample with
  | aliased => exact ⟨fun _ => rfl, fun hd => nomatch hd⟩
  | decl => exact ⟨fun ha => (nomatch ha), fun _ => rfl⟩

/-- Claim C4 witness: evaluated at an aliased-sample runner that also
has a custom query set, and at a plain-sample runner. -/
theorem dispatch_query_select_first_by_sample_kind_witness :
    runnerCustom.dispatch_query_select_first ["c"] none
        = runnerCustom.select_first_from_sample ["c"] none ∧
    runnerDecl.dispatch_query_select_first ["c"] none
        = runnerDecl.select_first_from_table ["c"] none := by
  exact ⟨(dispatch_query_select_first_by_sample_kind runnerCustom ["c"] none).1 rfl,
    (dispatch_query_select_first_by_sample_kind runnerDecl ["c"] none).2 rfl⟩

/-- Unfolding the batch loop on a non-empty row list. -/
theorem fetchBatches_eq (rows : List Row) (h : rows ≠ []) :
    fetchBatches rows = rows.take 1000 :: fetchBatches (rows.drop 1000) := by
  cases rows with
  | nil => exact absurd rfl h
  | cons r rs => rw [fetchBatches]

/-- Concatenating the yielded batches recovers exactly the rows of the
cursor: nothing is dropped or duplicated. -/
theorem fetchBatches_join (rows : List Row) : (fetchBatches rows).flatten = rows := by
  induction rows using fetchBatches.induct with
  | case1 => rw [fetchBatches]; rfl
  | case2 r rs ih =>
    rw [fetchBatches]
    simp only [List.flatten_cons]
    rw [ih, List.take_append_drop]

/-- Every yielded batch is non-empty and holds at most 1000 rows. -/
theorem fetchBatches_batch_sizes (rows : List Row) (b : List Row)
    (hb : b ∈ fetchBatches rows) : b ≠ [] ∧ b.length ≤ 1000 := by
  induction rows using fetchBatches.induct with
  | case1 => rw [fetchBatches] at hb; simp at hb
  | case2 r rs ih =>
    rw [fetchBatches] at hb
    cases List.mem_cons.mp hb with
    | inl hhead =>
      subst hhead
      refine ⟨by simp, ?_⟩
      rw [List.length_take]
      exact min_le_left _ _
    | inr htail => exact ih htail

/-- A 2500-row cursor yields exactly three batches, of 1000, 1000 and
500 rows. -/
theorem fetchBatches_len2500 (rows : List Row) (h : rows.length = 2500) :
    (fetchBatches rows).map List.length = [1000, 1000, 500] := by
  have h0 : rows ≠ [] := by
    intro he; rw [he] at h; simp at h
  have h1 : rows.drop 1000 ≠ [] := by
    intro he
    have hl := congrArg List.length he
    rw [List.length_drop, h] at hl
    simp at hl
  have h2 : (rows.drop 1000).drop 1000 ≠ [] := by
    intro he
    have hl := congrArg List.length he
    rw [List.length_drop, List.length_drop, h] at hl
    simp at hl
  have h3 : ((rows.drop 1000).drop 1000).drop 1000 = [] := by
    apply List.drop_eq_nil_of_le
    rw [List.length_drop, List.length_drop, h]
    omega
  rw [fetchBatches_eq rows h0, fetchBatches_eq _ h1, fetchBatches_eq _ h2, h3]
  rw [fetchBatches]
  simp [List.length_take, List.length_drop, h]

/-- Claim C5: yield_from_sample iterates the cursor in fetchmany(1000)
batches, terminating on the first empty fetch: the batches concatenate
to exactly the rows of the result, every batch holds between 1 and 1000
rows, and a 2500-row result comes back as three batches of sizes 1000,
1000, 500 (so exactly 2500 rows are yielded).  Each invocation executes
a fresh query built from the current bound state (first conjunct), so
the stream is restartable per call rather than sharing one cursor —
together with the unchanged instance state, two invocations on the same
runner produce identical, independent streams. -/
theorem yield_from_sample_streams_in_batches (r : QueryRunner) (entities : List String)
    (kwargs : Kwargs) :
    (r.yield_from_sample entities kwargs).1.executed
        = r._select_from_sample entities kwargs ∧
    (r.yield_from_sample entities kwargs).1.batches
        = fetchBatches (r._session.results (r._select_from_sample entities kwargs)) ∧
    (r.yield_from_sample entities kwargs).1.batches.flatten
        = r._session.results (r._select_from_sample entities kwargs) ∧
    (∀ b ∈ (r.yield_from_sample entities kwargs).1.batches, b ≠ [] ∧ b.length ≤ 1000) ∧
    ((r._session.results (r._select_from_sample entities kwargs)).length = 2500 →
        (r.yield_from_sample entities kwargs).1.batches.map List.length
          = [1000, 1000, 500]) := by
  refine ⟨rfl, rfl, fetchBatches_join _, ?_, ?_⟩
  · intro b hb
    exact fetchBatches_batch_sizes _ b hb
  · intro h
    exact fetchBatches_len2500 _ h

/-- Claim C5 witness: on a runner whose session delivers 2500 rows, the
stream yields three batches of sizes 1000, 1000, 500 that concatenate to
exactly 2500 rows. -/
theorem yield_from_sample_streams_in_batches_witness :
    (runnerBig.yield_from_sample ["c"] none).1.batches.map List.length
        = [1000, 1000, 500] ∧
    (runnerBig.yield_from_sample ["c"] none).1.batches.flatten.length = 2500 := by
  have h := yield_from_sample_streams_in_batches runnerBig ["c"] none
  have hr : (runnerBig._session.results (runnerBig._select_from_sample ["c"] none)).length
      = 2500 := by
    show (List.replicate 2500 (0 : Row)).length = 2500
    rw [List.length_replicate]
  exact ⟨h.2.2.2.2 hr, by rw [h.2.2.1]; exact hr⟩

/-- The sampler-side partition filter handler changes none of the three
structural observers. -/
theorem sampler_handler_observers (s : BigQuerySampler) (q : SQuery) :
    (sampler_partition_filter_handler s q).suffixes = q.suffixes ∧
    (sampler_partition_filter_handler s q).cteName = q.cteName ∧
    (sampler_partition_filter_handler s q).isGenericFallback = q.isGenericFallback := by
  unfold sampler_partition_filter_handler
  cases s.partition_details <;> exact ⟨rfl, rfl, rfl⟩

/-- The BigQuery base sample query always delegates to the base
construction: its fragment is a base constructor with the given label. -/
theorem base_sample_query_is_base (s : BigQuerySampler) (c : Option Column)
    (l : Option String) :
    ∃ c2, (s._base_sample_query c l).1 = SQuery.base c2 l := by
  cases c with
  | none => exact ⟨none, rfl⟩
  | some col =>
    by_cases h : (pySplitDot col.name).length > 1
    · simp only [BigQuerySampler._base_sample_query, if_pos h]
      exact ⟨_, rfl⟩
    · simp only [BigQuerySampler._base_sample_query, if_neg h]
      exact ⟨_, rfl⟩

/-- Shape of get_sample_query on the non-view percentage path: the base
sample fragment, suffixed with the TABLESAMPLE SYSTEM percentage clause,
wrapped as the tablename_sample CTE. -/
theorem get_sample_query_nonview_shape (s : BigQuerySampler) (column : Option Column)
    (hp : s.sample_config.profile_sample_type = ProfileSampleType.PERCENTAGE)
    (hv : s.table_type ≠ some TableType.View) :
    (s.get_sample_query column).1.suffixes
        = ["TABLESAMPLE SYSTEM (" ++ toString (pyOr s.sample_config.profile_sample 100)
            ++ " PERCENT)"] ∧
    (s.get_sample_query column).1.cteName = some (s.table.tablename ++ "_sample") ∧
    (s.get_sample_query column).1.isGenericFallback = false := by
  obtain ⟨c2, hc2⟩ := base_sample_query_is_base s column none
  have hobs := sampler_handler_observers s (s.get_sample_query_body column).1
  have hbody : s.get_sample_query_body column
      = ((SQuery.suffixWith (s._base_sample_query column none).1
          ("TABLESAMPLE SYSTEM (" ++ toString (pyOr s.sample_config.profile_sample 100)
            ++ " PERCENT)")).cte (s.table.tablename ++ "_sample"),
        (s._base_sample_query column none).2) := by
    unfold BigQuerySampler.get_sample_query_body
    rw [if_pos ⟨hp, hv⟩]
  have hq : (s.get_sample_query column).1
      = sampler_partition_filter_handler s (s.get_sample_query_body column).1 := rfl
  rw [hq]
  rw [hobs.1, hobs.2.1, hobs.2.2, hbody]
  rw [hc2]
  exact ⟨rfl, rfl, rfl⟩

/-- Shape of get_sample_query on the view path: the body is exactly the
base strategy generic fallback, with no suffix clause. -/
theorem get_sample_query_view_shape (s : BigQuerySampler) (column : Option Column)
    (hv : s.table_type = some TableType.View) :
    s.get_sample_query_body column = SQASampler.get_sample_query s column ∧
    (s.get_sample_query column).1.suffixes = [] ∧
    (s.get_sample_query column).1.isGenericFallback = true := by
  have hcond : ¬(s.sample_config.profile_sample_type = ProfileSampleType.PERCENTAGE ∧
      s.table_type ≠ some TableType.View) := by
    intro hc
    exact hc.2 hv
  have hbody : s.get_sample_query_body column = SQASampler.get_sample_query s column := by
    unfold BigQuerySampler.get_sample_query_body
    rw [if_neg hcond]
  have hobs := sampler_handler_observers s (s.get_sample_query_body column).1
  have hq : (s.get_sample_query column).1
      = sampler_partition_filter_handler s (s.get_sample_query_body column).1 := rfl
  refine ⟨hbody, ?_, ?_⟩
  · rw [hq, hobs.1, hbody]
    rfl
  · rw [hq, hobs.2.2, hbody]
    rfl

/-- Claim C6: for a percentage-based sample config, get_sample_query on
a view-kind table does not attach the TABLESAMPLE SYSTEM clause and does
not raise — the body is exactly the base strategy generic
get_sample_query fallback; on a non-view table it returns the base
sample query suffixed with the TABLESAMPLE SYSTEM percentage clause,
wrapped as the tablename_sample named CTE.  (The embedding is total, so
the no-raise part is the existence of the fallback value itself.) -/
theorem get_sample_query_view_fallback (s : BigQuerySampler) (column : Option Column)
    (hp : s.sample_config.profile_sample_type = ProfileSampleType.PERCENTAGE) :
    (s.table_type = some TableType.View →
        s.get_sample_query_body column = SQASampler.get_sample_query s column ∧
        (s.get_sample_query column).1.suffixes = [] ∧
        (s.get_sample_query column).1.isGenericFallback = true) ∧
    (s.table_type ≠ some TableType.View →
        (s.get_sample_query column).1.suffixes
            = ["TABLESAMPLE SYSTEM (" ++ toString (pyOr s.sample_config.profile_sample 100)
                ++ " PERCENT)"] ∧
        (s.get_sample_query column).1.cteName = some (s.table.tablename ++ "_sample") ∧
        (s.get_sample_query column).1.isGenericFallback = false) := by
  constructor
  · intro hv
    exact get_sample_query_view_shape s column hv
  · intro hv
    exact get_sample_query_nonview_shape s column hp hv

/-- Claim C6 witness: evaluated at a 50-percent config on a view (the
generic fallback, no suffix) and on a regular table (the TABLESAMPLE
SYSTEM clause at 50 percent). -/
theorem get_sample_query_view_fallback_witness :
    (samplerView.get_sample_query none).1.isGenericFallback = true ∧
    (samplerView.get_sample_query none).1.suffixes = [] ∧
    (samplerPct.get_sample_query none).1.suffixes = ["TABLESAMPLE SYSTEM (50 PERCENT)"] := by
  have h1 := get_sample_query_view_fallback samplerView none rfl
  have h2 := get_sample_query_view_fallback samplerPct none rfl
  refine ⟨(h1.1 rfl).2.2, (h1.1 rfl).2.1, ?_⟩
  have hs := (h2.2 (by decide)).1
  rw [hs]
  decide

/-- Claim C7: when the requested column name holds a path separator, the
BigQuery base sample query substitutes a new STRUCT column named after
the part before the first separator as the physically sampled column,
attaches it to the table column registry, and delegates to the base
construction — so the fragment references the parent column; evaluated
at the nested field address.city, the sampling clause references address
and not address.city. -/
theorem base_sample_query_struct_column (s : BigQuerySampler) (col : Column)
    (h : (pySplitDot col.name).length > 1) :
    (s._base_sample_query (some col) none).1
        = SQASampler._base_sample_query
            (some ⟨(pySplitDot col.name).headD col.name, ColType.STRUCT⟩) none ∧
    (s._base_sample_query (some col) none).2.table.columns
        = s.table.columns ++ [⟨(pySplitDot col.name).headD col.name, ColType.STRUCT⟩] ∧
    ((s._base_sample_query (some col) none).1.sampledColumn).map Column.name
        = some ((pySplitDot col.name).headD col.name) ∧
    (samplerPct._base_sample_query (some ⟨"address.city", ColType.OTHER⟩) none).1.sampledColumn
        = some ⟨"address", ColType.STRUCT⟩ ∧
    "address" ≠ "address.city" := by
  refine ⟨?_, ?_, ?_, by decide, by decide⟩
  · simp only [BigQuerySampler._base_sample_query, if_pos h]
  · simp only [BigQuerySampler._base_sample_query, if_pos h]
  · simp only [BigQuerySampler._base_sample_query, if_pos h]
    rfl

/-- Claim C7 witness: the general part evaluated at the nested column
address.city on a concrete sampler — the parent column address is
attached to the registry and sampled. -/
theorem base_sample_query_struct_column_witness :
    (samplerView._base_sample_query (some ⟨"address.city", ColType.OTHER⟩) none).2.table.columns
        = samplerView.table.columns ++ [⟨"address", ColType.STRUCT⟩] ∧
    ((samplerView._base_sample_query
        (some ⟨"address.city", ColType.OTHER⟩) none).1.sampledColumn).map Column.name
        = some "address" := by
  have h := base_sample_query_struct_column samplerView ⟨"address.city", ColType.OTHER⟩
    (by decide)
  exact ⟨h.2.1, h.2.2.1⟩

/-- Claim C8: the static materialized-query pair executes the pre-built
query exactly as given — .first() and .all() on it — without consulting
target resolution and without adding any partition or keyword filter:
the executed query, its source and its filter chain are the input ones
unchanged (and, being static, the operations read no runner state at
all). -/
theorem select_from_query_executes_as_given (q : Query) :
    QueryRunner.select_first_from_query q = ⟨Card.one, q⟩ ∧
    QueryRunner.select_all_from_query q = ⟨Card.all, q⟩ ∧
    (QueryRunner.select_first_from_query q).query.filters = q.filters ∧
    (QueryRunner.select_all_from_query q).query.filters = q.filters ∧
    (QueryRunner.select_first_from_query q).query.source = q.source ∧
    (QueryRunner.select_all_from_query q).query.source = q.source :=
  ⟨rfl, rfl, rfl, rfl, rfl, rfl⟩

/-- Claim C9: on the non-view percentage path, a falsy sampling
magnitude (unset, or 0) silently defaults to 100: the generated clause
is TABLESAMPLE SYSTEM (100 PERCENT). -/
theorem get_sample_query_falsy_magnitude_defaults_100 (s : BigQuerySampler)
    (column : Option Column)
    (hp : s.sample_config.profile_sample_type = ProfileSampleType.PERCENTAGE)
    (hv : s.table_type ≠ some TableType.View)
    (hm : s.sample_config.profile_sample = none ∨ s.sample_config.profile_sample = some 0) :
    (s.get_sample_query column).1.suffixes = ["TABLESAMPLE SYSTEM (100 PERCENT)"] := by
  have hshape := get_sample_query_nonview_shape s column hp hv
  rw [hshape.1]
  have h100 : pyOr s.sample_config.profile_sample 100 = 100 := by
    cases hm with
    | inl h => rw [h]; rfl
    | inr h => rw [h]; rfl
  rw [h100]
  decide

/-- Claim C9 witness: evaluated at a percentage-config sampler on a
regular table with the magnitude unset. -/
theorem get_sample_query_falsy_magnitude_defaults_100_witness :
    (samplerNoPct.get_sample_query none).1.suffixes
        = ["TABLESAMPLE SYSTEM (100 PERCENT)"] := by
  exact get_sample_query_falsy_magnitude_defaults_100 samplerNoPct none rfl (by decide)
    (Or.inl rfl)

/-- Claim C10: every QueryRunner fetch operation leaves the bound
instance state — the table handle, the sample handle, partition_details
and profile_sample_query — unchanged: the post-state instance equals the
input instance (the static materialized-query pair takes no instance at
all, so it cannot touch one). -/
theorem fetch_ops_preserve_bound_state (r : QueryRunner) (entities : List String)
    (kwargs : Kwargs) :
    (r.select_first_from_table entities kwargs).2 = r ∧
    (r.select_all_from_table entities kwargs).2 = r ∧
    (r.select_first_from_sample entities kwargs).2 = r ∧
    (r.select_all_from_sample entities kwargs).2 = r ∧
    (r.yield_from_sample entities kwargs).2 = r ∧
    (r.dispatch_query_select_first entities kwargs).2 = r := by
  refine ⟨rfl, rfl, rfl, rfl, rfl, ?_⟩
  unfold QueryRunner.dispatch_query_select_first
  cases r._sample <;> rfl

end OMRunner
